import Mathlib

/-!
Shallow embedding of `s3_vectors_rag_hands_on` (sync.py, infra.py, cleanup.py).

External AWS calls are modelled by environment records that supply the result
of each remote call; the embedded functions reproduce the control flow of the
Python source over these environments.  Time-valued parameters of the poller
(`poll_seconds`, `timeout_seconds`) are modelled as rationals.
-/

deriving instance DecidableEq for Except

/-- Statuses of a Bedrock ingestion job, from the `IngestionStatus` literal
type in sync.py. -/
inductive IngestionStatus
  | STARTING
  | IN_PROGRESS
  | COMPLETE
  | FAILED
  | STOPPING
  | STOPPED
deriving DecidableEq, Repr

/-- The terminal-state test of wait_for_sync (sync.py line 62):
`status in {"COMPLETE", "FAILED", "STOPPED"}`. -/
def isTerminalStatus : IngestionStatus → Bool
  | .COMPLETE => true
  | .FAILED => true
  | .STOPPED => true
  | _ => false

/-- The job record fetched on each poll (`response["ingestionJob"]`).  Only the
fields the embedded code branches on are kept: `status` and `failureReasons`
(sync.py lines 59, 130, 132); the statistics snapshot is formatted for logs but
never branched on. -/
structure IngestionJob where
  status : IngestionStatus
  failureReasons : List String
deriving DecidableEq, Repr

/-- Payload of the TimeoutError raised at sync.py lines 67-70: the message
`f"Ingestion job {ingestion_job_id} did not finish within {timeout_seconds}
seconds"` names exactly these two values. -/
structure SyncTimeout where
  jobId : String
  timeoutSeconds : ℚ
deriving DecidableEq, Repr

/-- Number of iterations of the while loop at sync.py line 52.  The loop body
runs with `waited = n * poll_seconds` for n = 0,1,2,... and is entered exactly
while `waited <= timeout_seconds`, so for a positive poll interval the
iteration count is `⌊timeout / poll⌋ + 1` when the timeout is nonnegative and
0 otherwise. -/
def loopIters (pollSeconds timeoutSeconds : ℚ) : ℕ :=
  if 0 ≤ timeoutSeconds then (⌊timeoutSeconds / pollSeconds⌋).toNat + 1 else 0

/-- One pass of the polling loop of wait_for_sync: fetch the job at index `i`
of the environment's poll sequence, stop on a terminal status, otherwise sleep
and continue with the next fetch.  Returns the statuses observed in order, the
terminal job if one was reached within `fuel` iterations, and the number of
sleeps performed. -/
def waitLoop (jobs : ℕ → IngestionJob) :
    ℕ → ℕ → List IngestionStatus × Option IngestionJob × ℕ
  | 0, _ => ([], none, 0)
  | fuel + 1, i =>
    let job := jobs i
    if isTerminalStatus job.status then
      ([job.status], some job, 0)
    else
      let rest := waitLoop jobs fuel (i + 1)
      (job.status :: rest.1, rest.2.1, rest.2.2 + 1)

/-- Observable outcome of one call to wait_for_sync: the statuses fetched (one
get_ingestion_job call each), how often the optional on_update callback was
invoked, how often the loop slept, how many stop requests were issued to the
remote job (the source never issues one), and the returned job or the raised
timeout. -/
structure WaitResult where
  observed : List IngestionStatus
  fetches : ℕ
  callbackCalls : ℕ
  sleeps : ℕ
  stopCalls : ℕ
  outcome : Except SyncTimeout IngestionJob
deriving Repr

/-- Body of wait_for_sync once the iteration budget of the while loop is
fixed: run the polling loop and package the observables. -/
def wait_for_sync_fuel (jobs : ℕ → IngestionJob) (ingestionJobId : String)
    (timeoutSeconds : ℚ) (hasCallback : Bool) (fuel : ℕ) : WaitResult :=
  let r := waitLoop jobs fuel 0
  { observed := r.1
    fetches := r.1.length
    callbackCalls := if hasCallback then r.1.length else 0
    sleeps := r.2.2
    stopCalls := 0
    outcome :=
      match r.2.1 with
      | some job => .ok job
      | none => .error ⟨ingestionJobId, timeoutSeconds⟩ }

/-- wait_for_sync (sync.py lines 39-70) over an environment `jobs` giving the
job returned by the n-th get_ingestion_job call.  The callback, when present
(`hasCallback`), is invoked on every poll (lines 60-61, before the terminal
test); the TimeoutError carries the job id and the configured timeout. -/
def wait_for_sync (jobs : ℕ → IngestionJob) (ingestionJobId : String)
    (pollSeconds timeoutSeconds : ℚ) (hasCallback : Bool) : WaitResult :=
  wait_for_sync_fuel jobs ingestionJobId timeoutSeconds hasCallback
    (loopIters pollSeconds timeoutSeconds)

/-- The edge-triggered filter inside main's on_update closure (sync.py lines
106-117): starting from `last_status`, each observed status is printed (and
remembered) only when it differs from the previously remembered one.  Returns
the number of status lines printed. -/
def onUpdatePrintLoop : Option IngestionStatus → List IngestionStatus → ℕ
  | _, [] => 0
  | last, s :: rest =>
    if some s = last then onUpdatePrintLoop last rest
    else onUpdatePrintLoop (some s) rest + 1

/-- Number of status lines main's on_update prints for a sequence of callback
invocations; `last_status` starts as None (sync.py line 104). -/
def mainOnUpdatePrints (observed : List IngestionStatus) : ℕ :=
  onUpdatePrintLoop none observed

/-- Exit-code classification of sync.py main (line 144):
`exit_code = 0 if status == "COMPLETE" and not failures else 1`. -/
def sync_main_exit (job : IngestionJob) : ℕ :=
  if job.status = .COMPLETE ∧ job.failureReasons = [] then 0 else 1

/-- Result record of provision_all (infra.py lines 16-21): the dataclass
`KnowledgeBaseResources` has exactly these four fields. -/
structure KnowledgeBaseResources where
  knowledge_base_id : String
  data_source_id : String
  vector_bucket_arn : String
  vector_index_arn : String
deriving DecidableEq, Repr

/-- The six provisioning steps of provision_all, in source order
(infra.py lines 341-351). -/
inductive ProvStep
  | docBucket
  | upload
  | vectorBucketIndex
  | kbRole
  | knowledgeBase
  | dataSource
deriving DecidableEq, Repr

/-- Labels used in the `[SUCCESS]`/`[FAIL]` log lines of the _provision_*
wrappers (infra.py lines 261-338). -/
def stepLabel : ProvStep → String
  | .docBucket => "document bucket"
  | .upload => "sample document upload"
  | .vectorBucketIndex => "S3 Vectors bucket and index"
  | .kbRole => "Bedrock knowledge base role"
  | .knowledgeBase => "knowledge base"
  | .dataSource => "data source"

/-- Environment of provision_all: the result (value or raised exception,
modelled as its message) of each underlying ensure/get_or_create call. -/
structure ProvisionEnv where
  ensure_document_bucket : Except String String
  upload_sample_documents : Except String Unit
  ensure_vector_bucket_and_index : Except String (String × String)
  ensure_bedrock_kb_role : Except String String
  get_or_create_knowledge_base : Except String String
  get_or_create_data_source : Except String String

/-- Observable run of provision_all: its returned value or propagated
exception, the `[SUCCESS]`/`[FAIL]` log lines in order, and the steps that
were executed, in order.  The source performs no deletion anywhere in
provision_all, so the executed trace ranges over provisioning steps only. -/
structure ProvRun where
  result : Except String KnowledgeBaseResources
  log : List String
  executed : List ProvStep
deriving DecidableEq, Repr

/-- Log line of a successful step wrapper (e.g. infra.py line 268). -/
def successLine (s : ProvStep) : String := "[SUCCESS] " ++ stepLabel s

/-- Log line of a failing step wrapper just before it re-raises
(e.g. infra.py line 265). -/
def failLine (s : ProvStep) (e : String) : String :=
  "[FAIL] " ++ stepLabel s ++ ": " ++ e

/-- provision_all (infra.py lines 341-357): run the six steps in order,
fail-fast on the first exception, and on full success assemble the
KnowledgeBaseResources record from the step results. -/
def provision_all (env : ProvisionEnv) : ProvRun :=
  match env.ensure_document_bucket with
  | .error e => ⟨.error e, [failLine .docBucket e], [.docBucket]⟩
  | .ok _documentBucketArn =>
    match env.upload_sample_documents with
    | .error e =>
      ⟨.error e, [successLine .docBucket, failLine .upload e],
        [.docBucket, .upload]⟩
    | .ok _ =>
      match env.ensure_vector_bucket_and_index with
      | .error e =>
        ⟨.error e,
          [successLine .docBucket, successLine .upload,
            failLine .vectorBucketIndex e],
          [.docBucket, .upload, .vectorBucketIndex]⟩
      | .ok (vectorBucketArn, vectorIndexArn) =>
        match env.ensure_bedrock_kb_role with
        | .error e =>
          ⟨.error e,
            [successLine .docBucket, successLine .upload,
              successLine .vectorBucketIndex, failLine .kbRole e],
            [.docBucket, .upload, .vectorBucketIndex, .kbRole]⟩
        | .ok _roleArn =>
          match env.get_or_create_knowledge_base with
          | .error e =>
            ⟨.error e,
              [successLine .docBucket, successLine .upload,
                successLine .vectorBucketIndex, successLine .kbRole,
                failLine .knowledgeBase e],
              [.docBucket, .upload, .vectorBucketIndex, .kbRole,
                .knowledgeBase]⟩
          | .ok knowledgeBaseId =>
            match env.get_or_create_data_source with
            | .error e =>
              ⟨.error e,
                [successLine .docBucket, successLine .upload,
                  successLine .vectorBucketIndex, successLine .kbRole,
                  successLine .knowledgeBase, failLine .dataSource e],
                [.docBucket, .upload, .vectorBucketIndex, .kbRole,
                  .knowledgeBase, .dataSource]⟩
            | .ok dataSourceId =>
              ⟨.ok
                  { knowledge_base_id := knowledgeBaseId
                    data_source_id := dataSourceId
                    vector_bucket_arn := vectorBucketArn
                    vector_index_arn := vectorIndexArn },
                [successLine .docBucket, successLine .upload,
                  successLine .vectorBucketIndex, successLine .kbRole,
                  successLine .knowledgeBase, successLine .dataSource],
                [.docBucket, .upload, .vectorBucketIndex, .kbRole,
                  .knowledgeBase, .dataSource]⟩

/-- The exception (as message) a given step would raise in environment `env`,
or none when the step would succeed. -/
def stepExc (env : ProvisionEnv) : ProvStep → Option String
  | .docBucket =>
    match env.ensure_document_bucket with | .error e => some e | .ok _ => none
  | .upload =>
    match env.upload_sample_documents with | .error e => some e | .ok _ => none
  | .vectorBucketIndex =>
    match env.ensure_vector_bucket_and_index with
    | .error e => some e
    | .ok _ => none
  | .kbRole =>
    match env.ensure_bedrock_kb_role with | .error e => some e | .ok _ => none
  | .knowledgeBase =>
    match env.get_or_create_knowledge_base with
    | .error e => some e
    | .ok _ => none
  | .dataSource =>
    match env.get_or_create_data_source with
    | .error e => some e
    | .ok _ => none

/-- The steps provision_all runs before a given step (source order,
infra.py lines 341-351). -/
def stepsBefore : ProvStep → List ProvStep
  | .docBucket => []
  | .upload => [.docBucket]
  | .vectorBucketIndex => [.docBucket, .upload]
  | .kbRole => [.docBucket, .upload, .vectorBucketIndex]
  | .knowledgeBase => [.docBucket, .upload, .vectorBucketIndex, .kbRole]
  | .dataSource =>
    [.docBucket, .upload, .vectorBucketIndex, .kbRole, .knowledgeBase]

/-- Errors raised by bedrock-agent / s3vectors / iam calls in cleanup.py.
`resourceNotFound` stands for the service's typed not-found exception
(ResourceNotFoundException, NotFoundException, NoSuchEntityException),
`conflict` for its typed ConflictException, and `clientError code` for any
other botocore ClientError carrying an error code. -/
inductive AwsErr
  | resourceNotFound
  | conflict
  | clientError (code : String)
deriving DecidableEq, Repr

/-- Outcome of one teardown delete step together with how many delete requests
it issued to the service (each function in cleanup.py issues its delete call
exactly once and never retries). -/
structure DeleteOutcome where
  outcome : Option Bool
  deleteAttempts : ℕ
deriving DecidableEq, Repr

/-- delete_data_source (cleanup.py lines 104-153).  The RETAIN-policy update
(lines 125-133) catches every ClientError, so its result never changes the
outcome; the delete call classifies: not-found → None, conflict → True
(deletion already in progress), other ClientError → False, success → True. -/
def delete_data_source (updateResult deleteResult : Except AwsErr Unit) :
    DeleteOutcome :=
  match updateResult, deleteResult with
  | _, .ok _ => ⟨some true, 1⟩
  | _, .error .resourceNotFound => ⟨none, 1⟩
  | _, .error .conflict => ⟨some true, 1⟩
  | _, .error (.clientError _) => ⟨some false, 1⟩

/-- delete_knowledge_base (cleanup.py lines 156-175): not-found → None,
conflict → True, other ClientError → False, success → True. -/
def delete_knowledge_base (deleteResult : Except AwsErr Unit) : DeleteOutcome :=
  match deleteResult with
  | .ok _ => ⟨some true, 1⟩
  | .error .resourceNotFound => ⟨none, 1⟩
  | .error .conflict => ⟨some true, 1⟩
  | .error (.clientError _) => ⟨some false, 1⟩

/-- delete_vector_index (cleanup.py lines 178-204): not-found → None,
conflict → False (no asynchronous completion is assumed), other ClientError →
False, success → True. -/
def delete_vector_index (deleteResult : Except AwsErr Unit) : DeleteOutcome :=
  match deleteResult with
  | .ok _ => ⟨some true, 1⟩
  | .error .resourceNotFound => ⟨none, 1⟩
  | .error .conflict => ⟨some false, 1⟩
  | .error (.clientError _) => ⟨some false, 1⟩

/-- delete_vector_bucket (cleanup.py lines 207-226): not-found → None,
conflict → False, other ClientError → False, success → True. -/
def delete_vector_bucket (deleteResult : Except AwsErr Unit) : DeleteOutcome :=
  match deleteResult with
  | .ok _ => ⟨some true, 1⟩
  | .error .resourceNotFound => ⟨none, 1⟩
  | .error .conflict => ⟨some false, 1⟩
  | .error (.clientError _) => ⟨some false, 1⟩

/-- delete_document_bucket (cleanup.py lines 267-286).  Plain S3 errors are
classified by their code string: NoSuchBucket → None, BucketNotEmpty → False,
any other code → False, success → True. -/
def delete_document_bucket (deleteResult : Except String Unit) : Option Bool :=
  match deleteResult with
  | .ok _ => some true
  | .error code =>
    if code = "NoSuchBucket" then none
    else if code = "BucketNotEmpty" then some false
    else some false

/-- One step of the paginated purge in empty_document_bucket (cleanup.py lines
244-250): either the next listing page arrives, carrying its object keys and —
when the page is non-empty and a delete_objects call is therefore issued — the
result of that call, or the listing itself raises a ClientError with the given
code. -/
inductive PurgeEvent
  | page (keys : List String) (deleteResult : Except String Unit)
  | listError (code : String)
deriving DecidableEq, Repr

/-- Observable run of empty_document_bucket: the returned count and the
delete_objects calls issued, each with its key batch and whether it
succeeded. -/
structure PurgeRun where
  count : ℕ
  deleteCalls : List (List String × Bool)
deriving DecidableEq, Repr

/-- Loop body of empty_document_bucket (cleanup.py lines 242-258): `acc` is
the `deleted` counter.  Pages with no keys are skipped (line 247-248) without
a delete call; after a successful batch delete the counter grows by the batch
size (line 250); a ClientError anywhere in the try block returns 0 when its
code is NoSuchBucket and the counter accumulated so far otherwise. -/
def purgeLoop : List PurgeEvent → ℕ → PurgeRun
  | [], acc => ⟨acc, []⟩
  | .listError code :: _, acc =>
    ⟨if code = "NoSuchBucket" then 0 else acc, []⟩
  | .page keys deleteResult :: rest, acc =>
    if keys.isEmpty then purgeLoop rest acc
    else
      match deleteResult with
      | .ok _ =>
        let r := purgeLoop rest (acc + keys.length)
        ⟨r.count, (keys, true) :: r.deleteCalls⟩
      | .error code =>
        ⟨if code = "NoSuchBucket" then 0 else acc, [(keys, false)]⟩

/-- empty_document_bucket (cleanup.py lines 237-264) over a trace of paginator
events; `deleted` starts at 0 (line 242). -/
def empty_document_bucket (events : List PurgeEvent) : PurgeRun :=
  purgeLoop events 0

/-- Whether the purge traversal is interrupted by a NoSuchBucket ClientError,
either from the listing or from a delete_objects call on a non-empty page. -/
def hitsNoSuchBucket : List PurgeEvent → Bool
  | [] => false
  | .listError code :: _ => code = "NoSuchBucket"
  | .page keys deleteResult :: rest =>
    if keys.isEmpty then hitsNoSuchBucket rest
    else
      match deleteResult with
      | .ok _ => hitsNoSuchBucket rest
      | .error code => code = "NoSuchBucket"

/-- Total number of keys in the delete_objects calls that succeeded. -/
def submittedKeyCount (calls : List (List String × Bool)) : ℕ :=
  ((calls.filter (fun c => c.2)).map (fun c => c.1.length)).sum

/-- CleanupSummary (cleanup.py lines 25-35): tri-state outcome per resource
kind plus the count of deleted document objects, in dataclass field order. -/
structure CleanupSummary where
  knowledge_base_deleted : Option Bool := none
  data_source_deleted : Option Bool := none
  vector_index_deleted : Option Bool := none
  vector_bucket_deleted : Option Bool := none
  documents_deleted : ℕ := 0
  document_bucket_deleted : Option Bool := none
  iam_role_deleted : Option Bool := none
deriving DecidableEq, Repr

/-- CleanupSummary.failures (cleanup.py lines 37-45): walk the fields in
declaration order, skip `documents_deleted`, and collect the keys whose value
is exactly False. -/
def CleanupSummary.failures (s : CleanupSummary) : List String :=
  (if s.knowledge_base_deleted = some false
    then ["knowledge_base_deleted"] else []) ++
  (if s.data_source_deleted = some false
    then ["data_source_deleted"] else []) ++
  (if s.vector_index_deleted = some false
    then ["vector_index_deleted"] else []) ++
  (if s.vector_bucket_deleted = some false
    then ["vector_bucket_deleted"] else []) ++
  (if s.document_bucket_deleted = some false
    then ["document_bucket_deleted"] else []) ++
  (if s.iam_role_deleted = some false then ["iam_role_deleted"] else [])

/-- Outcome of a resolve_* helper in cleanup.py as seen by cleanup_all: a
ValueError for a missing setting (caught by cleanup_all), None for an already
absent resource, the resolved id, or a service error other than not-found,
which the helper does not catch and therefore propagates. -/
inductive ResolveOutcome
  | valueError
  | absent
  | found (id : String)
  | raised (e : AwsErr)
deriving DecidableEq, Repr

/-- resolve_knowledge_base_id (cleanup.py lines 59-73): raise ValueError when
the configured id is empty; otherwise call get_knowledge_base, mapping its
typed not-found exception to None and letting any other error propagate. -/
def resolve_knowledge_base_id (kbIdSetting : String)
    (getKnowledgeBase : Except AwsErr Unit) : ResolveOutcome :=
  if kbIdSetting = "" then .valueError
  else
    match getKnowledgeBase with
    | .ok _ => .found kbIdSetting
    | .error .resourceNotFound => .absent
    | .error e => .raised e

/-- resolve_data_source (cleanup.py lines 76-101): raise ValueError when the
configured id is empty; otherwise call get_data_source, mapping its typed
not-found exception to None and letting any other error propagate.  The
returned DataSourceInfo is only threaded into delete_data_source, whose
outcome does not depend on its contents, so the id stands for the record. -/
def resolve_data_source (dsIdSetting : String)
    (getDataSource : Except AwsErr Unit) : ResolveOutcome :=
  if dsIdSetting = "" then .valueError
  else
    match getDataSource with
    | .ok _ => .found dsIdSetting
    | .error .resourceNotFound => .absent
    | .error e => .raised e

/-- Environment of delete_iam_role (cleanup.py lines 289-324): results of the
IAM list/delete/detach calls, with the per-policy calls keyed by policy
name. -/
structure IamEnv where
  listRolePolicies : Except AwsErr (List String)
  deleteRolePolicy : String → Except AwsErr Unit
  listAttachedRolePolicies : Except AwsErr (List String)
  detachRolePolicy : String → Except AwsErr Unit
  deleteRole : Except AwsErr Unit

/-- First error raised by a sequence of calls executed in order (execution
stops at the first raised exception). -/
def firstErr : List (Except AwsErr Unit) → Option AwsErr
  | [] => none
  | .ok _ :: rest => firstErr rest
  | .error e :: _ => some e

/-- delete_iam_role (cleanup.py lines 289-324): the inner try maps a
NoSuchEntityException from listing or deleting inline policies to None; the
outer try classifies NoSuchEntityException → None and any other ClientError →
False across the detach loop and the final delete_role; success → True. -/
def delete_iam_role (env : IamEnv) : Option Bool :=
  match env.listRolePolicies with
  | .error .resourceNotFound => none
  | .error _ => some false
  | .ok inlineNames =>
    match firstErr (inlineNames.map env.deleteRolePolicy) with
    | some .resourceNotFound => none
    | some _ => some false
    | none =>
      match env.listAttachedRolePolicies with
      | .error .resourceNotFound => none
      | .error _ => some false
      | .ok attachedArns =>
        match firstErr (attachedArns.map env.detachRolePolicy) with
        | some .resourceNotFound => none
        | some _ => some false
        | none =>
          match env.deleteRole with
          | .error .resourceNotFound => none
          | .error _ => some false
          | .ok _ => some true

/-- Environment of cleanup_all: the configured ids and the result of every
remote call the teardown can make, in a fixed run. -/
structure CleanupEnv where
  kbIdSetting : String
  dsIdSetting : String
  getKnowledgeBase : Except AwsErr Unit
  getDataSource : Except AwsErr Unit
  updateDataSource : Except AwsErr Unit
  deleteDataSourceCall : Except AwsErr Unit
  deleteKnowledgeBaseCall : Except AwsErr Unit
  deleteIndexCall : Except AwsErr Unit
  deleteVectorBucketCall : Except AwsErr Unit
  purgeEvents : List PurgeEvent
  deleteBucketCall : Except String Unit
  iam : IamEnv

/-- The tail of cleanup_all (cleanup.py lines 359-363) shared by every path:
vector index, vector bucket, document purge, document bucket and IAM role
steps always run, and each outcome is stored in the summary. -/
def cleanupTail (env : CleanupEnv) (s : CleanupSummary) : CleanupSummary :=
  { s with
    vector_index_deleted := (delete_vector_index env.deleteIndexCall).outcome
    vector_bucket_deleted :=
      (delete_vector_bucket env.deleteVectorBucketCall).outcome
    documents_deleted := (empty_document_bucket env.purgeEvents).count
    document_bucket_deleted := delete_document_bucket env.deleteBucketCall
    iam_role_deleted := delete_iam_role env.iam }

/-- cleanup_all (cleanup.py lines 327-386).  The ValueError of a resolve
helper is caught (lines 334-339, 343-348) and recorded as a False outcome,
its not-found is recorded by skipping the dependent deletes, but a service
error escaping a resolve helper propagates out of cleanup_all, which wraps
those calls in `except ValueError` only. -/
def cleanup_all (env : CleanupEnv) : Except AwsErr CleanupSummary :=
  match resolve_knowledge_base_id env.kbIdSetting env.getKnowledgeBase with
  | .raised e => .error e
  | .valueError =>
    .ok (cleanupTail env { knowledge_base_deleted := some false })
  | .absent => .ok (cleanupTail env {})
  | .found _kbId =>
    match resolve_data_source env.dsIdSetting env.getDataSource with
    | .raised e => .error e
    | .valueError =>
      .ok (cleanupTail env
        { data_source_deleted := some false
          knowledge_base_deleted :=
            (delete_knowledge_base env.deleteKnowledgeBaseCall).outcome })
    | .absent =>
      .ok (cleanupTail env
        { knowledge_base_deleted :=
            (delete_knowledge_base env.deleteKnowledgeBaseCall).outcome })
    | .found _dsId =>
      .ok (cleanupTail env
        { data_source_deleted :=
            (delete_data_source env.updateDataSource
              env.deleteDataSourceCall).outcome
          knowledge_base_deleted :=
            (delete_knowledge_base env.deleteKnowledgeBaseCall).outcome })

/-- Exit code of cleanup.py main (lines 389-397): 1 when `failures()` is
non-empty, else 0; an error escaping cleanup_all is re-signalled. -/
def cleanup_main (env : CleanupEnv) : Except AwsErr ℕ :=
  (cleanup_all env).map (fun s => if s.failures.isEmpty then 0 else 1)

/-- Poll sequence of the spec's edge-triggering example: successive
get_ingestion_job calls return STARTING, STARTING, IN_PROGRESS, IN_PROGRESS
and then COMPLETE, with no failure reasons. -/
def sampleStatusRun : ℕ → IngestionJob := fun n =>
  { status :=
      if n = 0 then .STARTING
      else if n = 1 then .STARTING
      else if n = 2 then .IN_PROGRESS
      else if n = 3 then .IN_PROGRESS
      else .COMPLETE
    failureReasons := [] }

/-- A job that never reaches a terminal state: every poll returns
IN_PROGRESS. -/
def foreverInProgress : ℕ → IngestionJob := fun _ =>
  { status := .IN_PROGRESS, failureReasons := [] }

/-- A provisioning environment in which every step succeeds, with distinct
identifiers per step. -/
def happyProvisionEnv : ProvisionEnv :=
  { ensure_document_bucket := .ok "arn:aws:s3:::kb-docs"
    upload_sample_documents := .ok ()
    ensure_vector_bucket_and_index := .ok ("arn:vb", "arn:vi")
    ensure_bedrock_kb_role := .ok "arn:role"
    get_or_create_knowledge_base := .ok "KB123"
    get_or_create_data_source := .ok "DS456" }

/-- A provisioning environment in which the vector bucket/index step raises
and every other step would succeed. -/
def failingProvisionEnv : ProvisionEnv :=
  { ensure_document_bucket := .ok "arn:aws:s3:::kb-docs"
    upload_sample_documents := .ok ()
    ensure_vector_bucket_and_index := .error "AccessDenied"
    ensure_bedrock_kb_role := .ok "arn:role"
    get_or_create_knowledge_base := .ok "KB123"
    get_or_create_data_source := .ok "DS456" }

/-- A cleanup environment in which both ids are configured, both resolve
lookups succeed, every delete call succeeds, and the document bucket holds
one page with two objects. -/
def happyCleanupEnv : CleanupEnv :=
  { kbIdSetting := "KB123"
    dsIdSetting := "DS456"
    getKnowledgeBase := .ok ()
    getDataSource := .ok ()
    updateDataSource := .ok ()
    deleteDataSourceCall := .ok ()
    deleteKnowledgeBaseCall := .ok ()
    deleteIndexCall := .ok ()
    deleteVectorBucketCall := .ok ()
    purgeEvents := [.page ["docs/a.md", "docs/b.md"] (.ok ())]
    deleteBucketCall := .ok ()
    iam :=
      { listRolePolicies :=
          .ok ["S3Access", "S3VectorsAccess", "BedrockModelAccess"]
        deleteRolePolicy := fun _ => .ok ()
        listAttachedRolePolicies := .ok []
        detachRolePolicy := fun _ => .ok ()
        deleteRole := .ok () } }

/-- The summary cleanup_all produces in `happyCleanupEnv`. -/
def happyCleanupSummary : CleanupSummary :=
  { knowledge_base_deleted := some true
    data_source_deleted := some true
    vector_index_deleted := some true
    vector_bucket_deleted := some true
    documents_deleted := 2
    document_bucket_deleted := some true
    iam_role_deleted := some true }

/-- The happy cleanup environment, except that get_knowledge_base fails with
an access-denied ClientError, which resolve_knowledge_base_id does not
catch. -/
def resolveErrorCleanupEnv : CleanupEnv :=
  { happyCleanupEnv with
    getKnowledgeBase := .error (.clientError "AccessDeniedException") }

/-- A summary in which only the vector-index deletion failed. -/
def indexFailSummary : CleanupSummary := { vector_index_deleted := some false }

theorem loopIters_eq_floor (p t : ℚ) (ht : 0 ≤ t) :
    loopIters p t = (⌊t / p⌋).toNat + 1 := by
  unfold loopIters
  rw [if_pos ht]

theorem loopIters_20_3600 : loopIters 20 3600 = 181 := by
  rw [loopIters_eq_floor 20 3600 (by norm_num)]
  norm_num
  decide

theorem loopIters_20_40 : loopIters 20 40 = 3 := by
  rw [loopIters_eq_floor 20 40 (by norm_num)]
  norm_num
  decide

theorem loopIters_double (p : ℚ) (hp : 0 < p) : loopIters p (2 * p) = 3 := by
  rw [loopIters_eq_floor p (2 * p) (by positivity)]
  rw [mul_div_assoc, div_self (ne_of_gt hp)]
  norm_num
  decide

theorem waitLoop_all_nonterminal (jobs : ℕ → IngestionJob)
    (h : ∀ n, isTerminalStatus (jobs n).status = false) :
    ∀ fuel i, (waitLoop jobs fuel i).1.length = fuel ∧
      (waitLoop jobs fuel i).2.1 = none ∧
      (waitLoop jobs fuel i).2.2 = fuel := by
  intro fuel
  induction fuel with
  | zero => intro i; simp [waitLoop]
  | succ n ih =>
    intro i
    have hi := h i
    obtain ⟨ih1, ih2, ih3⟩ := ih (i + 1)
    simp [waitLoop, hi, ih1, ih2, ih3]

theorem waitLoop_some_terminal (jobs : ℕ → IngestionJob) :
    ∀ fuel i job, (waitLoop jobs fuel i).2.1 = some job →
      isTerminalStatus job.status = true := by
  intro fuel
  induction fuel with
  | zero => intro i job h; simp [waitLoop] at h
  | succ n ih =>
    intro i job h
    by_cases ht : isTerminalStatus (jobs i).status
    · simp [waitLoop, ht] at h
      rw [← h]
      exact ht
    · simp [waitLoop, ht] at h
      exact ih (i + 1) job h

/-- C1 counterexample: for the polled status sequence [STARTING, STARTING,
IN_PROGRESS, IN_PROGRESS, COMPLETE] the callback passed to wait_for_sync is
invoked on every poll, hence 5 times and not 3: the status-change filter lives
in main's on_update closure, not in wait_for_sync. -/
theorem wait_for_sync_callback_counterexample :
    (wait_for_sync sampleStatusRun "job-1" 20 3600 true).callbackCalls = 5 ∧
    (wait_for_sync sampleStatusRun "job-1" 20 3600 true).callbackCalls ≠ 3 := by
  unfold wait_for_sync
  rw [loopIters_20_3600]
  exact ⟨by decide, by decide⟩

/-- C1 (amended): wait_for_sync invokes the callback on every poll, so for the
polled status sequence [STARTING, STARTING, IN_PROGRESS, IN_PROGRESS,
COMPLETE] the callback fires 5 times; the edge-triggered filter inside main's
on_update closure then prints exactly 3 status lines, one per distinct
transition. -/
theorem wait_for_sync_callback_edge_filter :
    (∀ (jobs : ℕ → IngestionJob) (jobId : String) (p t : ℚ),
      (wait_for_sync jobs jobId p t true).callbackCalls =
        (wait_for_sync jobs jobId p t true).fetches) ∧
    (wait_for_sync sampleStatusRun "job-1" 20 3600 true).observed =
      [.STARTING, .STARTING, .IN_PROGRESS, .IN_PROGRESS, .COMPLETE] ∧
    (wait_for_sync sampleStatusRun "job-1" 20 3600 true).callbackCalls = 5 ∧
    mainOnUpdatePrints
      [.STARTING, .STARTING, .IN_PROGRESS, .IN_PROGRESS, .COMPLETE] = 3 := by
  refine ⟨fun jobs jobId p t => rfl, ?_, ?_, by decide⟩ <;>
    · unfold wait_for_sync
      rw [loopIters_20_3600]
      decide

/-- C2 counterexample: a job that never leaves IN_PROGRESS, polled with
timeout_seconds = 2 × poll_seconds (= 40 with poll 20), is fetched 3 times
and not 2, because the loop guard `waited <= timeout_seconds` also admits
waited = 2 × poll. -/
theorem wait_for_sync_two_polls_counterexample :
    (wait_for_sync foreverInProgress "job-2" 20 40 false).fetches = 3 ∧
    (wait_for_sync foreverInProgress "job-2" 20 40 false).fetches ≠ 2 := by
  unfold wait_for_sync
  rw [loopIters_20_40]
  exact ⟨by decide, by decide⟩

/-- C2 (amended): for every job whose fetched status is never terminal,
wait_for_sync with timeout_seconds = 2 × poll_seconds performs exactly 3
status polls (one each at waited = 0, poll and 2·poll), then fails with a
timeout error carrying the ingestion job id and the configured timeout value,
and issues no stop request to the remote job. -/
theorem wait_for_sync_timeout_three_polls (jobs : ℕ → IngestionJob)
    (jobId : String) (p : ℚ) (cb : Bool) (hp : 0 < p)
    (hnt : ∀ n, isTerminalStatus (jobs n).status = false) :
    (wait_for_sync jobs jobId p (2 * p) cb).fetches = 3 ∧
    (wait_for_sync jobs jobId p (2 * p) cb).outcome =
      .error ⟨jobId, 2 * p⟩ ∧
    (wait_for_sync jobs jobId p (2 * p) cb).stopCalls = 0 := by
  obtain ⟨h1, h2, -⟩ := waitLoop_all_nonterminal jobs hnt 3 0
  unfold wait_for_sync wait_for_sync_fuel
  rw [loopIters_double p hp]
  refine ⟨h1, ?_, rfl⟩
  dsimp only
  rw [h2]

/-- Witness for the amended C2 theorem at a concrete never-terminal job and
poll interval 20. -/
theorem wait_for_sync_timeout_three_polls_witness :
    (wait_for_sync foreverInProgress "job-2" 20 (2 * 20) false).fetches = 3 ∧
    (wait_for_sync foreverInProgress "job-2" 20 (2 * 20) false).outcome =
      .error ⟨"job-2", 2 * 20⟩ ∧
    (wait_for_sync foreverInProgress "job-2" 20 (2 * 20) false).stopCalls = 0 :=
  wait_for_sync_timeout_three_polls foreverInProgress "job-2" 20 false
    (by norm_num) (fun _ => rfl)

/-- C9: for every timeout_seconds ≥ 0 (including 0) and positive poll
interval, wait_for_sync performs at least one status fetch, and when the
first fetched status is already terminal it returns that job immediately,
without sleeping for the poll interval. -/
theorem wait_for_sync_fetches_before_timeout (jobs : ℕ → IngestionJob)
    (jobId : String) (p t : ℚ) (cb : Bool) (hp : 0 < p) (ht : 0 ≤ t) :
    1 ≤ (wait_for_sync jobs jobId p t cb).fetches ∧
    (isTerminalStatus (jobs 0).status = true →
      (wait_for_sync jobs jobId p t cb).outcome = .ok (jobs 0) ∧
      (wait_for_sync jobs jobId p t cb).sleeps = 0) := by
  unfold wait_for_sync wait_for_sync_fuel
  rw [loopIters_eq_floor p t ht]
  constructor
  · by_cases hterm : isTerminalStatus (jobs 0).status
    · simp [waitLoop, hterm]
    · simp [waitLoop, hterm]
  · intro hterm
    constructor
    · dsimp only
      simp [waitLoop, hterm]
    · dsimp only
      simp [waitLoop, hterm]

/-- Witness for the C9 theorem: a first-poll COMPLETE job with
timeout_seconds = 0 is fetched once and returned without sleeping. -/
theorem wait_for_sync_fetches_before_timeout_witness :
    1 ≤ (wait_for_sync (fun _ => ⟨.COMPLETE, []⟩) "job-3" 20 0 false).fetches ∧
    (wait_for_sync (fun _ => ⟨.COMPLETE, []⟩) "job-3" 20 0 false).outcome =
      .ok ⟨.COMPLETE, []⟩ ∧
    (wait_for_sync (fun _ => ⟨.COMPLETE, []⟩) "job-3" 20 0 false).sleeps = 0 := by
  have h := wait_for_sync_fetches_before_timeout (fun _ => ⟨.COMPLETE, []⟩)
    "job-3" 20 0 false (by norm_num) (le_refl 0)
  exact ⟨h.1, (h.2 rfl).1, (h.2 rfl).2⟩

/-- C8: every job returned by wait_for_sync is terminal, and sync.py main
exits with status 0 exactly when the job status is COMPLETE and its
failure-reasons list is empty; every other terminal combination yields exit
status 1. -/
theorem sync_exit_iff_clean_complete (jobs : ℕ → IngestionJob)
    (jobId : String) (p t : ℚ) (cb : Bool) (job : IngestionJob)
    (h : (wait_for_sync jobs jobId p t cb).outcome = .ok job) :
    isTerminalStatus job.status = true ∧
    (sync_main_exit job = 0 ↔
      (job.status = .COMPLETE ∧ job.failureReasons = [])) ∧
    (sync_main_exit job = 1 ↔
      ¬(job.status = .COMPLETE ∧ job.failureReasons = [])) := by
  refine ⟨?_, ?_, ?_⟩
  · unfold wait_for_sync wait_for_sync_fuel at h
    dsimp only at h
    rcases hm : (waitLoop jobs (loopIters p t) 0).2.1 with - | j
    · rw [hm] at h
      exact absurd h (by simp)
    · rw [hm] at h
      simp only [Except.ok.injEq] at h
      rw [← h]
      exact waitLoop_some_terminal jobs (loopIters p t) 0 j hm
  · unfold sync_main_exit
    by_cases hc : job.status = .COMPLETE ∧ job.failureReasons = []
    · simp [hc]
    · simp [hc]
  · unfold sync_main_exit
    by_cases hc : job.status = .COMPLETE ∧ job.failureReasons = []
    · simp [hc]
    · simp [hc]

/-- Witness for the C8 theorem: a job that is COMPLETE on the first poll with
a non-empty failure-reasons list is terminal and classified as exit 1. -/
theorem sync_exit_iff_clean_complete_witness :
    isTerminalStatus (IngestionJob.mk .COMPLETE ["doc x failed"]).status =
      true ∧
    (sync_main_exit ⟨.COMPLETE, ["doc x failed"]⟩ = 0 ↔
      ((IngestionJob.mk .COMPLETE ["doc x failed"]).status = .COMPLETE ∧
        (IngestionJob.mk .COMPLETE ["doc x failed"]).failureReasons = [])) ∧
    (sync_main_exit ⟨.COMPLETE, ["doc x failed"]⟩ = 1 ↔
      ¬((IngestionJob.mk .COMPLETE ["doc x failed"]).status = .COMPLETE ∧
        (IngestionJob.mk .COMPLETE ["doc x failed"]).failureReasons = [])) := by
  refine sync_exit_iff_clean_complete
    (fun _ => ⟨.COMPLETE, ["doc x failed"]⟩) "job-4" 20 3600 false
    ⟨.COMPLETE, ["doc x failed"]⟩ ?_
  unfold wait_for_sync
  rw [loopIters_20_3600]
  rfl

/-- C3 counterexample: a fully successful provisioning run returns a
KnowledgeBaseResources record with exactly four identifiers — knowledge-base
ID, data-source ID, vector-bucket ARN and vector-index ARN — and the
document-bucket ARN produced by the first step is not among them, so the
result is not an aggregate of five identifiers. -/
theorem provision_result_no_document_bucket_arn :
    (provision_all happyProvisionEnv).result =
      .ok ⟨"KB123", "DS456", "arn:vb", "arn:vi"⟩ ∧
    "arn:aws:s3:::kb-docs" ∉ ["KB123", "DS456", "arn:vb", "arn:vi"] :=
  ⟨rfl, by decide⟩

/-- C3 (amended): whenever provision_all returns without raising, its result
aggregates four identifiers — knowledge-base ID, data-source ID,
vector-bucket ARN and vector-index ARN (the document-bucket ARN is consumed
internally and not exposed) — and each is populated only because its
corresponding provisioning step completed without error. -/
theorem provision_result_fields_from_steps (env : ProvisionEnv)
    (r : KnowledgeBaseResources)
    (h : (provision_all env).result = .ok r) :
    env.get_or_create_knowledge_base = .ok r.knowledge_base_id ∧
    env.get_or_create_data_source = .ok r.data_source_id ∧
    env.ensure_vector_bucket_and_index =
      .ok (r.vector_bucket_arn, r.vector_index_arn) ∧
    (∃ arn, env.ensure_document_bucket = .ok arn) ∧
    (∃ u, env.upload_sample_documents = .ok u) ∧
    (∃ arn, env.ensure_bedrock_kb_role = .ok arn) := by
  rcases hdb : env.ensure_document_bucket with e1 | v1
  · simp [provision_all, hdb] at h
  rcases hup : env.upload_sample_documents with e2 | v2
  · simp [provision_all, hdb, hup] at h
  rcases hvb : env.ensure_vector_bucket_and_index with e3 | ⟨vb, vi⟩
  · simp [provision_all, hdb, hup, hvb] at h
  rcases hrl : env.ensure_bedrock_kb_role with e4 | v4
  · simp [provision_all, hdb, hup, hvb, hrl] at h
  rcases hkb : env.get_or_create_knowledge_base with e5 | v5
  · simp [provision_all, hdb, hup, hvb, hrl, hkb] at h
  rcases hds : env.get_or_create_data_source with e6 | v6
  · simp [provision_all, hdb, hup, hvb, hrl, hkb, hds] at h
  simp [provision_all, hdb, hup, hvb, hrl, hkb, hds] at h
  rw [← h]
  exact ⟨rfl, rfl, rfl, ⟨v1, rfl⟩, ⟨v2, rfl⟩, ⟨v4, rfl⟩⟩

/-- Witness for the amended C3 theorem at the all-success environment. -/
theorem provision_result_fields_from_steps_witness :
    happyProvisionEnv.get_or_create_knowledge_base = .ok "KB123" ∧
    happyProvisionEnv.get_or_create_data_source = .ok "DS456" ∧
    happyProvisionEnv.ensure_vector_bucket_and_index =
      .ok ("arn:vb", "arn:vi") ∧
    (∃ arn, happyProvisionEnv.ensure_document_bucket = .ok arn) ∧
    (∃ u, happyProvisionEnv.upload_sample_documents = .ok u) ∧
    (∃ arn, happyProvisionEnv.ensure_bedrock_kb_role = .ok arn) :=
  provision_result_fields_from_steps happyProvisionEnv
    ⟨"KB123", "DS456", "arn:vb", "arn:vi"⟩ rfl

/-- C6: if a provisioning step raises while all steps before it succeed,
provision_all propagates that exception, its log is the success markers of
the earlier steps followed by the failure marker of the failed step, and
exactly the steps up to and including the failed one were executed — no
later step runs, no result is returned, and the executed trace contains no
rollback of earlier steps. -/
theorem provision_fail_fast (env : ProvisionEnv) (s : ProvStep) (e : String)
    (hfail : stepExc env s = some e)
    (hok : ∀ t ∈ stepsBefore s, stepExc env t = none) :
    (provision_all env).result = .error e ∧
    (provision_all env).executed = stepsBefore s ++ [s] ∧
    (provision_all env).log =
      (stepsBefore s).map successLine ++ [failLine s e] := by
  cases s
  case docBucket =>
    rcases hdb : env.ensure_document_bucket with e1 | v1
    · simp [stepExc, hdb] at hfail
      subst hfail
      simp [provision_all, hdb, stepsBefore]
    · simp [stepExc, hdb] at hfail
  case upload =>
    have h1 : stepExc env .docBucket = none := hok _ (by simp [stepsBefore])
    rcases hdb : env.ensure_document_bucket with e1 | v1
    · simp [stepExc, hdb] at h1
    rcases hup : env.upload_sample_documents with e2 | v2
    · simp [stepExc, hup] at hfail
      subst hfail
      simp [provision_all, hdb, hup, stepsBefore]
    · simp [stepExc, hup] at hfail
  case vectorBucketIndex =>
    have h1 : stepExc env .docBucket = none := hok _ (by simp [stepsBefore])
    have h2 : stepExc env .upload = none := hok _ (by simp [stepsBefore])
    rcases hdb : env.ensure_document_bucket with e1 | v1
    · simp [stepExc, hdb] at h1
    rcases hup : env.upload_sample_documents with e2 | v2
    · simp [stepExc, hup] at h2
    rcases hvb : env.ensure_vector_bucket_and_index with e3 | ⟨vb, vi⟩
    · simp [stepExc, hvb] at hfail
      subst hfail
      simp [provision_all, hdb, hup, hvb, stepsBefore]
    · simp [stepExc, hvb] at hfail
  case kbRole =>
    have h1 : stepExc env .docBucket = none := hok _ (by simp [stepsBefore])
    have h2 : stepExc env .upload = none := hok _ (by simp [stepsBefore])
    have h3 : stepExc env .vectorBucketIndex = none :=
      hok _ (by simp [stepsBefore])
    rcases hdb : env.ensure_document_bucket with e1 | v1
    · simp [stepExc, hdb] at h1
    rcases hup : env.upload_sample_documents with e2 | v2
    · simp [stepExc, hup] at h2
    rcases hvb : env.ensure_vector_bucket_and_index with e3 | ⟨vb, vi⟩
    · simp [stepExc, hvb] at h3
    rcases hrl : env.ensure_bedrock_kb_role with e4 | v4
    · simp [stepExc, hrl] at hfail
      subst hfail
      simp [provision_all, hdb, hup, hvb, hrl, stepsBefore]
    · simp [stepExc, hrl] at hfail
  case knowledgeBase =>
    have h1 : stepExc env .docBucket = none := hok _ (by simp [stepsBefore])
    have h2 : stepExc env .upload = none := hok _ (by simp [stepsBefore])
    have h3 : stepExc env .vectorBucketIndex = none :=
      hok _ (by simp [stepsBefore])
    have h4 : stepExc env .kbRole = none := hok _ (by simp [stepsBefore])
    rcases hdb : env.ensure_document_bucket with e1 | v1
    · simp [stepExc, hdb] at h1
    rcases hup : env.upload_sample_documents with e2 | v2
    · simp [stepExc, hup] at h2
    rcases hvb : env.ensure_vector_bucket_and_index with e3 | ⟨vb, vi⟩
    · simp [stepExc, hvb] at h3
    rcases hrl : env.ensure_bedrock_kb_role with e4 | v4
    · simp [stepExc, hrl] at h4
    rcases hkb : env.get_or_create_knowledge_base with e5 | v5
    · simp [stepExc, hkb] at hfail
      subst hfail
      simp [provision_all, hdb, hup, hvb, hrl, hkb, stepsBefore]
    · simp [stepExc, hkb] at hfail
  case dataSource =>
    have h1 : stepExc env .docBucket = none := hok _ (by simp [stepsBefore])
    have h2 : stepExc env .upload = none := hok _ (by simp [stepsBefore])
    have h3 : stepExc env .vectorBucketIndex = none :=
      hok _ (by simp [stepsBefore])
    have h4 : stepExc env .kbRole = none := hok _ (by simp [stepsBefore])
    have h5 : stepExc env .knowledgeBase = none :=
      hok _ (by simp [stepsBefore])
    rcases hdb : env.ensure_document_bucket with e1 | v1
    · simp [stepExc, hdb] at h1
    rcases hup : env.upload_sample_documents with e2 | v2
    · simp [stepExc, hup] at h2
    rcases hvb : env.ensure_vector_bucket_and_index with e3 | ⟨vb, vi⟩
    · simp [stepExc, hvb] at h3
    rcases hrl : env.ensure_bedrock_kb_role with e4 | v4
    · simp [stepExc, hrl] at h4
    rcases hkb : env.get_or_create_knowledge_base with e5 | v5
    · simp [stepExc, hkb] at h5
    rcases hds : env.get_or_create_data_source with e6 | v6
    · simp [stepExc, hds] at hfail
      subst hfail
      simp [provision_all, hdb, hup, hvb, hrl, hkb, hds, stepsBefore]
    · simp [stepExc, hds] at hfail

/-- Witness for the C6 theorem: in the environment where the vector
bucket/index step raises AccessDenied, provision_all propagates the
exception, logs two success markers and the failure marker, and runs only
the first three steps. -/
theorem provision_fail_fast_witness :
    (provision_all failingProvisionEnv).result = .error "AccessDenied" ∧
    (provision_all failingProvisionEnv).executed =
      stepsBefore .vectorBucketIndex ++ [.vectorBucketIndex] ∧
    (provision_all failingProvisionEnv).log =
      (stepsBefore .vectorBucketIndex).map successLine ++
        [failLine .vectorBucketIndex "AccessDenied"] :=
  provision_fail_fast failingProvisionEnv .vectorBucketIndex "AccessDenied"
    rfl (by decide)

theorem purgeLoop_calls_nonempty :
    ∀ (events : List PurgeEvent) (acc : ℕ),
      ∀ c ∈ (purgeLoop events acc).deleteCalls, ¬c.1 = [] := by
  intro events
  induction events with
  | nil => intro acc c hc; simp [purgeLoop] at hc
  | cons ev rest ih =>
    intro acc c hc
    cases ev with
    | listError code => simp [purgeLoop] at hc
    | page keys del =>
      cases hk : keys.isEmpty
      case true =>
        simp only [purgeLoop, hk, if_true] at hc
        exact ih acc c hc
      case false =>
        cases del with
        | ok u =>
          simp [purgeLoop, hk] at hc
          rcases hc with rfl | hc
          · intro h0
            simp only at h0
            rw [h0] at hk
            simp at hk
          · exact ih (acc + keys.length) c hc
        | error code =>
          simp [purgeLoop, hk] at hc
          subst hc
          intro h0
          simp only at h0
          rw [h0] at hk
          simp at hk

theorem purgeLoop_count_noSuchBucket :
    ∀ (events : List PurgeEvent) (acc : ℕ),
      hitsNoSuchBucket events = true → (purgeLoop events acc).count = 0 := by
  intro events
  induction events with
  | nil => intro acc h; simp [hitsNoSuchBucket] at h
  | cons ev rest ih =>
    intro acc h
    cases ev with
    | listError code =>
      simp [hitsNoSuchBucket, decide_eq_true_eq] at h
      simp [purgeLoop, h]
    | page keys del =>
      cases hk : keys.isEmpty
      case true =>
        simp only [hitsNoSuchBucket, hk, if_true] at h
        simp only [purgeLoop, hk, if_true]
        exact ih acc h
      case false =>
        cases del with
        | ok u =>
          simp [hitsNoSuchBucket, hk] at h
          simp [purgeLoop, hk]
          exact ih (acc + keys.length) h
        | error code =>
          simp [hitsNoSuchBucket, hk, decide_eq_true_eq] at h
          simp [purgeLoop, hk, h]

theorem purgeLoop_count_accum :
    ∀ (events : List PurgeEvent) (acc : ℕ),
      hitsNoSuchBucket events = false →
      (purgeLoop events acc).count =
        acc + submittedKeyCount (purgeLoop events acc).deleteCalls := by
  intro events
  induction events with
  | nil => intro acc h; simp [purgeLoop, submittedKeyCount]
  | cons ev rest ih =>
    intro acc h
    cases ev with
    | listError code =>
      simp [hitsNoSuchBucket, decide_eq_false_iff_not] at h
      simp [purgeLoop, h, submittedKeyCount]
    | page keys del =>
      cases hk : keys.isEmpty
      case true =>
        simp only [hitsNoSuchBucket, hk, if_true] at h
        simp only [purgeLoop, hk, if_true]
        exact ih acc h
      case false =>
        cases del with
        | ok u =>
          simp only [hitsNoSuchBucket, hk] at h
          simp only [purgeLoop, hk]
          simp only [Bool.false_eq_true, if_false]
          rw [ih (acc + keys.length) (by simpa using h)]
          simp [submittedKeyCount]
          omega
        | error code =>
          simp [hitsNoSuchBucket, hk, decide_eq_false_iff_not] at h
          simp [purgeLoop, hk, h, submittedKeyCount]

/-- C10: empty_document_bucket issues no delete call for a page with no
keys; it returns 0 when the traversal is interrupted by NoSuchBucket, and
otherwise it returns exactly the number of keys submitted in successful
batch-delete calls (the full total when no error interrupts, the partial
count when another service error interrupts midway); and cleanup_all stores
this count in the summary whatever the subsequent bucket deletion does. -/
theorem empty_document_bucket_count_spec (events : List PurgeEvent) :
    (∀ c ∈ (empty_document_bucket events).deleteCalls, ¬c.1 = []) ∧
    (hitsNoSuchBucket events = true →
      (empty_document_bucket events).count = 0) ∧
    (hitsNoSuchBucket events = false →
      (empty_document_bucket events).count =
        submittedKeyCount (empty_document_bucket events).deleteCalls) ∧
    (∀ (env : CleanupEnv) (s : CleanupSummary), cleanup_all env = .ok s →
      s.documents_deleted = (empty_document_bucket env.purgeEvents).count) := by
  refine ⟨purgeLoop_calls_nonempty events 0,
    purgeLoop_count_noSuchBucket events 0,
    fun h => by
      have := purgeLoop_count_accum events 0 h
      simpa [empty_document_bucket] using this,
    ?_⟩
  intro env s h
  unfold cleanup_all at h
  cases hr : resolve_knowledge_base_id env.kbIdSetting env.getKnowledgeBase
  all_goals rw [hr] at h
  case raised e => exact absurd h (by simp)
  case valueError =>
    simp only [Except.ok.injEq] at h
    rw [← h]
    rfl
  case absent =>
    simp only [Except.ok.injEq] at h
    rw [← h]
    rfl
  case found kbId =>
    cases hr2 : resolve_data_source env.dsIdSetting env.getDataSource
    all_goals rw [hr2] at h
    case raised e => exact absurd h (by simp)
    all_goals
      simp only [Except.ok.injEq] at h
      rw [← h]
      rfl

/-- Witness for the C10 theorem: a three-page purge (one page empty) counts
3 submitted keys, and in the all-success cleanup environment the summary
stores the purge count. -/
theorem empty_document_bucket_count_spec_witness :
    (empty_document_bucket
        [.page ["a"] (.ok ()), .page [] (.ok ()),
          .page ["b", "c"] (.ok ())]).count =
      submittedKeyCount
        (empty_document_bucket
          [.page ["a"] (.ok ()), .page [] (.ok ()),
            .page ["b", "c"] (.ok ())]).deleteCalls ∧
    happyCleanupSummary.documents_deleted =
      (empty_document_bucket happyCleanupEnv.purgeEvents).count :=
  ⟨((empty_document_bucket_count_spec
      [.page ["a"] (.ok ()), .page [] (.ok ()),
        .page ["b", "c"] (.ok ())]).2.2.1) rfl,
    ((empty_document_bucket_count_spec happyCleanupEnv.purgeEvents).2.2.2)
      happyCleanupEnv happyCleanupSummary rfl⟩

/-- C7: when the delete call fails with a conflicting-operation error, the
recorded outcome is True (optimistic) for the data-source and knowledge-base
deletion steps — whatever the RETAIN-policy update returned — but False for
the vector-index deletion step, and each step issues its delete request
exactly once, with no retry. -/
theorem conflict_outcomes_no_retry (upd : Except AwsErr Unit) :
    delete_data_source upd (.error .conflict) = ⟨some true, 1⟩ ∧
    delete_knowledge_base (.error .conflict) = ⟨some true, 1⟩ ∧
    delete_vector_index (.error .conflict) = ⟨some false, 1⟩ := by
  refine ⟨?_, rfl, rfl⟩
  cases upd <;> rfl

/-- C4 counterexample: a get_knowledge_base failure with an access-denied
ClientError is not caught by resolve_knowledge_base_id (which handles only
ResourceNotFoundException) nor by cleanup_all (which handles only
ValueError), so cleanup_all raises instead of returning a summary. -/
theorem cleanup_all_raises_counterexample :
    cleanup_all resolveErrorCleanupEnv =
      .error (.clientError "AccessDeniedException") ∧
    (cleanup_all resolveErrorCleanupEnv).isOk = false :=
  ⟨rfl, rfl⟩

/-- C4 (amended): whenever neither resolve lookup raises a service error
other than not-found, cleanup_all returns a CleanupSummary, and every
per-resource outcome of the always-run tail steps — including any failure
recorded as False by the total delete functions — is stored in that summary
rather than propagated as an exception. -/
theorem cleanup_all_total_when_resolve_benign (env : CleanupEnv)
    (hkb : ∀ e, resolve_knowledge_base_id env.kbIdSetting
      env.getKnowledgeBase ≠ .raised e)
    (hds : ∀ e, resolve_data_source env.dsIdSetting
      env.getDataSource ≠ .raised e) :
    ∃ s, cleanup_all env = .ok s ∧
      s.vector_index_deleted =
        (delete_vector_index env.deleteIndexCall).outcome ∧
      s.vector_bucket_deleted =
        (delete_vector_bucket env.deleteVectorBucketCall).outcome ∧
      s.documents_deleted = (empty_document_bucket env.purgeEvents).count ∧
      s.document_bucket_deleted =
        delete_document_bucket env.deleteBucketCall ∧
      s.iam_role_deleted = delete_iam_role env.iam := by
  unfold cleanup_all
  cases hr : resolve_knowledge_base_id env.kbIdSetting env.getKnowledgeBase
  case raised e => exact absurd hr (hkb e)
  case valueError => exact ⟨_, rfl, rfl, rfl, rfl, rfl, rfl⟩
  case absent => exact ⟨_, rfl, rfl, rfl, rfl, rfl, rfl⟩
  case found kbId =>
    cases hr2 : resolve_data_source env.dsIdSetting env.getDataSource
    case raised e => exact absurd hr2 (hds e)
    case valueError => exact ⟨_, rfl, rfl, rfl, rfl, rfl, rfl⟩
    case absent => exact ⟨_, rfl, rfl, rfl, rfl, rfl, rfl⟩
    case found dsId => exact ⟨_, rfl, rfl, rfl, rfl, rfl, rfl⟩

/-- Witness for the amended C4 theorem at the all-success cleanup
environment. -/
theorem cleanup_all_total_when_resolve_benign_witness :
    ∃ s, cleanup_all happyCleanupEnv = .ok s ∧
      s.vector_index_deleted =
        (delete_vector_index happyCleanupEnv.deleteIndexCall).outcome ∧
      s.vector_bucket_deleted =
        (delete_vector_bucket happyCleanupEnv.deleteVectorBucketCall).outcome ∧
      s.documents_deleted =
        (empty_document_bucket happyCleanupEnv.purgeEvents).count ∧
      s.document_bucket_deleted =
        delete_document_bucket happyCleanupEnv.deleteBucketCall ∧
      s.iam_role_deleted = delete_iam_role happyCleanupEnv.iam :=
  cleanup_all_total_when_resolve_benign happyCleanupEnv
    (fun _ h => ResolveOutcome.noConfusion h)
    (fun _ h => ResolveOutcome.noConfusion h)

theorem mem_failures_iff (s : CleanupSummary) (k : String) :
    k ∈ s.failures ↔
      ((k = "knowledge_base_deleted" ∧
          s.knowledge_base_deleted = some false) ∨
        (k = "data_source_deleted" ∧ s.data_source_deleted = some false) ∨
        (k = "vector_index_deleted" ∧ s.vector_index_deleted = some false) ∨
        (k = "vector_bucket_deleted" ∧
          s.vector_bucket_deleted = some false) ∨
        (k = "document_bucket_deleted" ∧
          s.document_bucket_deleted = some false) ∨
        (k = "iam_role_deleted" ∧ s.iam_role_deleted = some false)) := by
  unfold CleanupSummary.failures
  split_ifs <;> simp_all

/-- C5: failures() returns exactly the resource-kind keys whose stored value
is exactly False, with documents_deleted excluded from the check, and the
teardown exit status computed by main is 1 exactly when this list is
non-empty (0 otherwise). -/
theorem failures_false_fields_and_exit (s : CleanupSummary) (k : String)
    (env : CleanupEnv) (r : CleanupSummary) (h : cleanup_all env = .ok r) :
    (k ∈ s.failures ↔
      ((k = "knowledge_base_deleted" ∧
          s.knowledge_base_deleted = some false) ∨
        (k = "data_source_deleted" ∧ s.data_source_deleted = some false) ∨
        (k = "vector_index_deleted" ∧ s.vector_index_deleted = some false) ∨
        (k = "vector_bucket_deleted" ∧
          s.vector_bucket_deleted = some false) ∨
        (k = "document_bucket_deleted" ∧
          s.document_bucket_deleted = some false) ∨
        (k = "iam_role_deleted" ∧ s.iam_role_deleted = some false))) ∧
    "documents_deleted" ∉ s.failures ∧
    (cleanup_main env = .ok 1 ↔ r.failures ≠ []) ∧
    (cleanup_main env = .ok 0 ↔ r.failures = []) := by
  refine ⟨mem_failures_iff s k, ?_, ?_, ?_⟩
  · intro hmem
    rcases (mem_failures_iff s _).mp hmem with
      ⟨hk, -⟩ | ⟨hk, -⟩ | ⟨hk, -⟩ | ⟨hk, -⟩ | ⟨hk, -⟩ | ⟨hk, -⟩ <;>
      simp at hk
  · unfold cleanup_main
    rw [h]
    cases hf : r.failures
    case nil => simp [Except.map, hf]
    case cons a l => simp [Except.map, hf]
  · unfold cleanup_main
    rw [h]
    cases hf : r.failures
    case nil => simp [Except.map, hf]
    case cons a l => simp [Except.map, hf]

/-- Witness for the C5 theorem: a summary whose only False entry is the
vector index, checked at the key "vector_index_deleted", together with the
all-success cleanup run, whose failure list is empty and whose exit status
is 0. -/
theorem failures_false_fields_and_exit_witness :
    ("vector_index_deleted" ∈ indexFailSummary.failures ↔
      (("vector_index_deleted" = "knowledge_base_deleted" ∧
          indexFailSummary.knowledge_base_deleted = some false) ∨
        ("vector_index_deleted" = "data_source_deleted" ∧
          indexFailSummary.data_source_deleted = some false) ∨
        ("vector_index_deleted" = "vector_index_deleted" ∧
          indexFailSummary.vector_index_deleted = some false) ∨
        ("vector_index_deleted" = "vector_bucket_deleted" ∧
          indexFailSummary.vector_bucket_deleted = some false) ∨
        ("vector_index_deleted" = "document_bucket_deleted" ∧
          indexFailSummary.document_bucket_deleted = some false) ∨
        ("vector_index_deleted" = "iam_role_deleted" ∧
          indexFailSummary.iam_role_deleted = some false))) ∧
    "documents_deleted" ∉ indexFailSummary.failures ∧
    (cleanup_main happyCleanupEnv = .ok 1 ↔
      happyCleanupSummary.failures ≠ []) ∧
    (cleanup_main happyCleanupEnv = .ok 0 ↔
      happyCleanupSummary.failures = []) :=
  failures_false_fields_and_exit indexFailSummary "vector_index_deleted"
    happyCleanupEnv happyCleanupSummary rfl

/-- Witness for the C7 theorem with a successful RETAIN-policy update. -/
theorem conflict_outcomes_no_retry_witness :
    delete_data_source (.ok ()) (.error .conflict) = ⟨some true, 1⟩ ∧
    delete_knowledge_base (.error .conflict) = ⟨some true, 1⟩ ∧
    delete_vector_index (.error .conflict) = ⟨some false, 1⟩ :=
  conflict_outcomes_no_retry (.ok ())
